import Mathlib

/-!
# Verification of the resilient HTTP client (`pkg/httputil` + `pkg/apperr`)

Shallow embedding of the resilient outbound-request client of the go-kit
repository: the categorized-error model (`pkg/apperr`), the status-to-error
classifier `MapStatusToError`, the retry loop (the `retry-go` engine as
configured by `httpClient.Do`), the circuit breaker (the `gobreaker`
dependency as configured by `GetClient`), the orchestration `httpClient.Do`,
the generic helper `DoJSON`, and the singleton accessor `GetClient`.

Conventions: durations and instants are natural numbers (nanoseconds);
HTTP statuses are natural numbers; request bodies are strings; the generic
JSON decode of `DoJSON` is abstracted as a `String → Option T` function.
Concurrency is not modelled: every call is a single atomic step of the
breaker state, timestamped by one instant.
-/

namespace GoKit

/-- Error codes from `pkg/apperr/error_code.go` (`ErrorCode` constants). -/
inductive ErrorCode where
  | invalidInput
  | unauthorized
  | permissionDenied
  | resourceNotFound
  | conflict
  | internal
  | notImplemented
  | unavailable
  | deadlineExceeded
  deriving DecidableEq, Repr

/-- Plain Go errors that can become the `err` cause of an `AppErr` in this
subsystem: transport-level failures, the synthetic
`fmt.Errorf("server error: %d", status)` built by the retry closure,
`gobreaker.ErrOpenState`, and a `json.Unmarshal` failure. -/
inductive GoError where
  | network (info : String)
  | serverError (status : Nat)
  | errOpenState
  | jsonError
  deriving DecidableEq, Repr

/-- `apperr.AppErr` (`pkg/apperr/error.go`): machine-readable code, message,
optional cause. The `context` map is never used by the client and is omitted. -/
structure AppErr where
  code : ErrorCode
  message : String
  cause : Option GoError := none
  deriving DecidableEq, Repr

/-- Embeds `MapStatusToError` (src/unnamed/part_010): the Go `switch` on the
status code, with cases 404, 400, 401, 403, 409, 429 and a default of
`apperr.Internal`. -/
def MapStatusToError (code : Nat) (msg : String) : AppErr :=
  if code = 404 then { code := .resourceNotFound, message := msg }
  else if code = 400 then { code := .invalidInput, message := msg }
  else if code = 401 then { code := .unauthorized, message := msg }
  else if code = 403 then { code := .permissionDenied, message := msg }
  else if code = 409 then { code := .conflict, message := msg }
  else if code = 429 then { code := .unavailable, message := msg }
  else { code := .internal, message := msg }

/-- An HTTP response: status code and body. -/
structure Response where
  status : Nat
  body : String
  deriving DecidableEq, Repr

/-- Outcome of one invocation of the underlying transport
(`c.client.Do(req)`): a response, or a transport-level error with a nil
response. -/
inductive TransportResult where
  | ok (resp : Response)
  | err (e : GoError)
  deriving DecidableEq, Repr

/-- `Config` (src, httputil config file): durations in nanoseconds. -/
structure Config where
  timeout : Nat
  dialTimeout : Nat
  maxRetries : Nat
  retryDelay : Nat
  cbThreshold : Nat
  cbTimeout : Nat
  deriving DecidableEq, Repr

/-- Embeds `DefaultConfig` (src, httputil config file): 30s, 5s, 3 retries,
1s, threshold 10, 1m. -/
def DefaultConfig : Config :=
  { timeout := 30000000000
    dialTimeout := 5000000000
    maxRetries := 3
    retryDelay := 1000000000
    cbThreshold := 10
    cbTimeout := 60000000000 }

/-- The error returned by the retried closure in `httpClient.Do` for one
attempt: the transport error itself, `server error: status` for a 5xx
response, and nil (`none`) for any response with status below 500. -/
def attemptOutcome (t : TransportResult) : Option GoError :=
  match t with
  | .err e => some e
  | .ok r => if 500 ≤ r.status then some (.serverError r.status) else none

/-- The value of the captured `resp` variable after one attempt: the
response, or nil when `c.client.Do` failed. -/
def respOf (t : TransportResult) : Option Response :=
  match t with
  | .ok r => some r
  | .err _ => none

/-- Floor base-2 logarithm by fuel-bounded halving. -/
def log2FloorAux : Nat → Nat → Nat
  | 0, _ => 0
  | fuel + 1, n => if 2 ≤ n then log2FloorAux fuel (n / 2) + 1 else 0

/-- Floor base-2 logarithm (`math.Floor(math.Log2(float64(delay)))` in the
retry-go source): the fuel `n` suffices since halving `n` reaches 1 within
`n` steps. -/
def log2Floor (n : Nat) : Nat := log2FloorAux n n

/-- The `BackOffDelay` strategy of the retry-go dependency, selected by
`retry.DelayType(retry.BackOffDelay)` in `httpClient.Do`: the delay before
the retry following the (n+1)-th attempt is `delay << n`, with the shift
capped at `62 - log2 delay` so the duration cannot overflow, and a
non-positive configured delay replaced by 1. -/
def backOffDelay (n : Nat) (delay : Nat) : Nat :=
  let d := max delay 1
  d <<< (min n (62 - log2Floor d))

/-- Trace of one `retry.Do` execution: number of transport invocations, the
final value of the captured `resp` variable, the error returned by
`retry.Do` (`none` on success, the last error under `LastErrorOnly(true)`),
and the backoff sleeps performed, in order. -/
structure RetryRun where
  calls : Nat
  lastResp : Option Response
  result : Option GoError
  sleeps : List Nat
  deriving DecidableEq, Repr

/-- The retry loop of the retry-go dependency as configured in
`httpClient.Do` (`Attempts`, `Delay`, `BackOffDelay`, `LastErrorOnly(true)`,
and a `RetryIf` that accepts every non-nil error): attempt `n` runs the
transport; a nil outcome returns success at once; otherwise, when fuel
remains, the loop sleeps `backOffDelay n delay` and retries. `fuel` is the
number of attempts still allowed, so the loop started with
`fuel = attempts` makes at most `attempts` transport invocations.
`Attempts(0)` means retry-until-success in the library and is not modelled:
theorems assume at least one attempt. -/
def retryLoop (tr : Nat → TransportResult) (delay : Nat) : Nat → Nat → RetryRun
  | n, 0 => { calls := n, lastResp := none, result := none, sleeps := [] }
  | n, fuel + 1 =>
    let t := tr n
    match attemptOutcome t with
    | none => { calls := n + 1, lastResp := respOf t, result := none, sleeps := [] }
    | some e =>
      if fuel = 0 then
        { calls := n + 1, lastResp := respOf t, result := some e, sleeps := [] }
      else
        let rest := retryLoop tr delay (n + 1) fuel
        { rest with sleeps := backOffDelay n delay :: rest.sleeps }

/-- `retry.Do` as invoked by `httpClient.Do`: the loop from attempt 0 with
`attempts` total attempts allowed. -/
def retryDo (tr : Nat → TransportResult) (attempts delay : Nat) : RetryRun :=
  retryLoop tr delay 0 attempts

/-- Circuit-breaker state tag (spec §4.1; `gobreaker.State`). `Open` is
spelled `opened` because `open` is a Lean keyword. -/
inductive BreakerState where
  | closed
  | opened
  | halfOpen
  deriving DecidableEq, Repr

/-- Breaker counters relevant to the configured settings. -/
structure BreakerCounts where
  consecutiveFailures : Nat
  consecutiveSuccesses : Nat
  deriving DecidableEq, Repr

/-- Breaker snapshot: state, counters, and the instant at which an `opened`
state expires (admitting a trial). -/
structure Breaker where
  state : BreakerState
  counts : BreakerCounts
  expiry : Nat
  deriving DecidableEq, Repr

/-- A freshly constructed breaker: closed, zero counters. -/
def initialBreaker : Breaker :=
  { state := .closed, counts := ⟨0, 0⟩, expiry := 0 }

/-- Embeds the `ReadyToTrip` closure installed by `GetClient`
(src/unnamed/part_010): `counts.ConsecutiveFailures >= cfg.CBThreshold`. -/
def readyToTrip (threshold : Nat) (c : BreakerCounts) : Bool :=
  threshold ≤ c.consecutiveFailures

/-- Modelled from the spec: the breaker internals live in the third-party
gobreaker dependency, which is not under src/. Spec §4.1: in `Open`, once
the configured open-duration has elapsed since the transition, the next call
is admitted as a trial and the state becomes `HalfOpen` (counters reset for
the new generation). Before then, and in every other state, the snapshot is
unchanged. -/
def breakerCurrentState (b : Breaker) (now : Nat) : Breaker :=
  match b.state with
  | .opened =>
    if b.expiry ≤ now then { state := .halfOpen, counts := ⟨0, 0⟩, expiry := 0 }
    else b
  | _ => b

/-- Modelled from the spec: success accounting (spec §4.1). Any observed
success resets the consecutive-failure counter to zero; a trial success in
`HalfOpen` transitions to `Closed` with fresh counters (the configured
`MaxRequests: 0` means a single trial suffices). -/
def breakerOnSuccess (b : Breaker) : Breaker :=
  match b.state with
  | .halfOpen => { state := .closed, counts := ⟨0, 0⟩, expiry := 0 }
  | _ =>
    { b with
      counts :=
        { consecutiveFailures := 0
          consecutiveSuccesses := b.counts.consecutiveSuccesses + 1 } }

/-- Modelled from the spec: failure accounting (spec §4.1). While `Closed`,
a failure increments the consecutive-failure counter and, when
`readyToTrip` (embedded from src) holds for the new counters, the breaker
opens until `now + cbTimeout`; a trial failure in `HalfOpen` reopens the
breaker and restarts the open-duration timer. -/
def breakerOnFailure (cfg : Config) (b : Breaker) (now : Nat) : Breaker :=
  match b.state with
  | .closed =>
    let c : BreakerCounts :=
      { consecutiveFailures := b.counts.consecutiveFailures + 1
        consecutiveSuccesses := 0 }
    if readyToTrip cfg.cbThreshold c then
      { state := .opened, counts := ⟨0, 0⟩, expiry := now + cfg.cbTimeout }
    else { b with counts := c }
  | .halfOpen => { state := .opened, counts := ⟨0, 0⟩, expiry := now + cfg.cbTimeout }
  | .opened => b

/-- The error built by the `errors.Is(err, gobreaker.ErrOpenState)` branch
of `httpClient.Do`:
`apperr.Internal("servicio externo no disponible (circuito abierto)").WithError(err)`. -/
def breakerOpenErr : AppErr :=
  { code := .internal
    message := "servicio externo no disponible (circuito abierto)"
    cause := some .errOpenState }

/-- Embeds `(*httpClient).mapError` (src/unnamed/part_010): with a non-nil
final response, classify its status; otherwise a generic network/timeout
internal error wrapping the cause. -/
def mapError (e : GoError) (resp : Option Response) : AppErr :=
  match resp with
  | some r => MapStatusToError r.status "error en petición HTTP"
  | none => { code := .internal, message := "error de red o timeout", cause := some e }

/-- Result of one `(*httpClient).Do` call, together with the breaker
snapshot it leaves behind and the backoff sleeps it performed. -/
structure DoResult where
  resp : Option Response
  err : Option AppErr
  transportCalls : Nat
  breaker : Breaker
  sleeps : List Nat
  deriving DecidableEq, Repr

/-- Embeds `(*httpClient).Do` (src/unnamed/part_010): poll the breaker; an
`Open` breaker rejects the call at once with `breakerOpenErr` and zero
transport invocations; otherwise the retry loop runs and the breaker
observes its aggregate outcome; a nil retry error returns the captured
response, a non-nil one is classified by `mapError`. Breaker internals are
modelled from the spec (gobreaker is a dependency, not under src/). -/
def httpDo (cfg : Config) (b : Breaker) (now : Nat) (tr : Nat → TransportResult) : DoResult :=
  let b1 := breakerCurrentState b now
  if b1.state = .opened then
    { resp := none, err := some breakerOpenErr, transportCalls := 0, breaker := b1, sleeps := [] }
  else
    let run := retryDo tr cfg.maxRetries cfg.retryDelay
    match run.result with
    | none =>
      { resp := run.lastResp
        err := none
        transportCalls := run.calls
        breaker := breakerOnSuccess b1
        sleeps := run.sleeps }
    | some e =>
      { resp := none
        err := some (mapError e run.lastResp)
        transportCalls := run.calls
        breaker := breakerOnFailure cfg b1 now
        sleeps := run.sleeps }

/-- The error built by `DoJSON` when `json.Unmarshal` fails on the body of a
success-status response. -/
def decodeFailureErr : AppErr :=
  { code := .internal
    message := "error al decodificar respuesta JSON"
    cause := some .jsonError }

/-- Embeds `DoJSON` (src/unnamed/part_010) downstream of the `client.Do`
call, whose outcome is the argument: a client error propagates unchanged; a
response with status at least 400 is classified by `MapStatusToError`
before the body is touched; otherwise the body is decoded, a decode failure
yielding `decodeFailureErr`. Reading the body cannot fail in the model. -/
def DoJSON {T : Type} (decode : String → Option T) (outcome : Except AppErr Response) :
    Except AppErr T :=
  match outcome with
  | .error e => .error e
  | .ok resp =>
    if 400 ≤ resp.status then
      .error (MapStatusToError resp.status "error en respuesta de API externa")
    else
      match decode resp.body with
      | none => .error decodeFailureErr
      | some v => .ok v

/-- A constructed client instance: the configuration and logger it was
built with (the logger abstracted to an identifier) and its fresh breaker. -/
structure ClientInst where
  cfg : Config
  loggerId : Nat
  breaker : Breaker
  deriving DecidableEq, Repr

/-- Embeds `GetClient` (src/unnamed/part_010): the `sync.Once` singleton as
explicit state passing. With no instance yet, one is built from the given
config (or `DefaultConfig` when the config is nil) and stored; afterwards
the stored instance is returned and the arguments are ignored. -/
def GetClient (inst : Option ClientInst) (loggerId : Nat) (cfg : Option Config) :
    ClientInst × Option ClientInst :=
  match inst with
  | some c => (c, some c)
  | none =>
    let c : ClientInst :=
      { cfg := cfg.getD DefaultConfig, loggerId := loggerId, breaker := initialBreaker }
    (c, some c)

/-- Per-attempt effect of `http.Client.Timeout`: the `http.Client`
constructed in `GetClient` carries `Timeout: cfg.Timeout` and is invoked
once per retry attempt, so the timeout clock restarts at every attempt. An
attempt whose duration would exceed the timeout is cut off at the timeout
and becomes a network error; otherwise the transport outcome stands. -/
def attemptWithClientTimeout (timeout : Nat) (dur : Nat → Nat) (tr : Nat → TransportResult)
    (i : Nat) : TransportResult :=
  if timeout < dur i then .err (.network "Client.Timeout exceeded") else tr i

/-- Wall-clock duration of attempt `i` under the per-attempt client
timeout. -/
def attemptElapsed (timeout : Nat) (dur : Nat → Nat) (i : Nat) : Nat :=
  min (dur i) timeout

/-- Total elapsed time of a retry run: durations of the executed attempts
plus all backoff sleeps. -/
def totalElapsed (timeout : Nat) (dur : Nat → Nat) (run : RetryRun) : Nat :=
  ((List.range run.calls).map (attemptElapsed timeout dur)).sum + run.sleeps.sum

/-- A transport that answers status 404 to every attempt. -/
def tr404 : Nat → TransportResult := fun _ => .ok ⟨404, "sin recurso"⟩

/-- A transport that answers status 500 to every attempt. -/
def tr500 : Nat → TransportResult := fun _ => .ok ⟨500, "error interno"⟩

/-- A transport that answers status 200 to every attempt. -/
def tr200 : Nat → TransportResult := fun _ => .ok ⟨200, "ok"⟩

/-- A transport that answers 500 to the first two attempts and 200 from the
third attempt on. -/
def tr500then200 : Nat → TransportResult := fun i =>
  if i < 2 then .ok ⟨500, "error interno"⟩ else .ok ⟨200, "ok"⟩

/-- A transport that answers 500 to the first attempt and 200 afterwards. -/
def trOneFailure : Nat → TransportResult := fun i =>
  if i = 0 then .ok ⟨500, "error interno"⟩ else .ok ⟨200, "ok"⟩

/-- The configuration of the repository's own resilience test
(`client_test.go`): two attempts, threshold 3 — time values scaled to
abstract units. -/
def c2cfg : Config :=
  { timeout := 1000000, dialTimeout := 100000, maxRetries := 2, retryDelay := 10000
    cbThreshold := 3, cbTimeout := 100000 }

/-- A configuration with four attempts and base delay 1000, for observing
three consecutive backoff sleeps. -/
def c5cfg : Config :=
  { timeout := 1000000, dialTimeout := 100000, maxRetries := 4, retryDelay := 1000
    cbThreshold := 10, cbTimeout := 100000 }

/-- A configuration whose overall timeout (30000) is larger than any single
attempt below but smaller than three of them. -/
def c6cfg : Config :=
  { timeout := 30000, dialTimeout := 100, maxRetries := 3, retryDelay := 1000
    cbThreshold := 10, cbTimeout := 60000 }

/-- Attempt durations for the timeout scenario: every attempt takes 20000,
under the per-attempt timeout of 30000. -/
def c6dur : Nat → Nat := fun _ => 20000

/-- The retry run of the timeout scenario: every attempt passes the
per-attempt timeout check and returns status 500. -/
def c6run : RetryRun :=
  retryDo (attemptWithClientTimeout c6cfg.timeout c6dur tr500) c6cfg.maxRetries c6cfg.retryDelay

/-- A breaker whose state tag is `closed` is left unchanged by the
call-time state poll. -/
theorem breakerCurrentState_closed (b : Breaker) (now : Nat) (hb : b.state = .closed) :
    breakerCurrentState b now = b := by
  unfold breakerCurrentState
  rw [hb]

/-- Shifting the starting index commutes with prepending the first backoff
sleep to the sleeps of a retry run. -/
theorem backOff_cons_range (n g d : Nat) :
    backOffDelay n d :: (List.range g).map (fun i => backOffDelay (n + 1 + i) d) =
      (List.range (g + 1)).map fun i => backOffDelay (n + i) d := by
  rw [List.range_succ_eq_map, List.map_cons, List.map_map]
  refine congrArg₂ List.cons (congrArg₂ backOffDelay (by omega) rfl) ?_
  refine List.map_congr_left fun i _ => ?_
  exact congrArg₂ backOffDelay (by omega) rfl

/-- The retry loop started at attempt `n` with `fuel` attempts allowed makes
at most `n + fuel` transport invocations. -/
theorem retryLoop_calls_le (tr : Nat → TransportResult) (d : Nat) :
    ∀ fuel n, (retryLoop tr d n fuel).calls ≤ n + fuel := by
  intro fuel
  induction fuel with
  | zero => intro n; simp [retryLoop]
  | succ f ih =>
    intro n
    simp only [retryLoop]
    cases h : attemptOutcome (tr n) with
    | none => simp [h]
    | some e =>
      simp only [h]
      by_cases hf : f = 0
      · subst hf; simp
      · simp only [if_neg hf]
        have hrec := ih (n + 1)
        show (retryLoop tr d (n + 1) f).calls ≤ n + (f + 1)
        omega

/-- If the attempts at indices `n, …, n+j-1` all fail and the attempt at
index `n+j` succeeds, with enough fuel for it, the loop returns success
after exactly `j+1` further invocations, with one backoff sleep per
failure. -/
theorem retryLoop_success (tr : Nat → TransportResult) (d : Nat) :
    ∀ j n fuel, j < fuel →
      (∀ i, i < j → (attemptOutcome (tr (n + i))).isSome) →
      attemptOutcome (tr (n + j)) = none →
      retryLoop tr d n fuel =
        { calls := n + j + 1
          lastResp := respOf (tr (n + j))
          result := none
          sleeps := (List.range j).map fun i => backOffDelay (n + i) d } := by
  intro j
  induction j with
  | zero =>
    intro n fuel hj _ hsucc
    obtain ⟨f, rfl⟩ : ∃ f, fuel = f + 1 := ⟨fuel - 1, by omega⟩
    rw [Nat.add_zero] at hsucc
    simp [retryLoop, hsucc]
  | succ j ih =>
    intro n fuel hj hfail hsucc
    obtain ⟨f, rfl⟩ : ∃ f, fuel = f + 1 := ⟨fuel - 1, by omega⟩
    have h0 : (attemptOutcome (tr (n + 0))).isSome := hfail 0 (by omega)
    rw [Nat.add_zero] at h0
    obtain ⟨e, he⟩ := Option.isSome_iff_exists.mp h0
    have hf : f ≠ 0 := by omega
    have hrest := ih (n + 1) f (by omega)
      (fun i hi => by
        have hx := hfail (i + 1) (by omega)
        rw [show n + (i + 1) = n + 1 + i from by omega] at hx
        exact hx)
      (by rw [show n + 1 + j = n + (j + 1) from by omega]; exact hsucc)
    simp only [retryLoop, he, if_neg hf, hrest]
    congr 1
    · omega
    · exact congrArg (fun m => respOf (tr m)) (by omega)
    · exact backOff_cons_range n j d

/-- If every attempt fails, the loop exhausts its fuel: with `fuel ≥ 1`
attempts allowed from index `n`, it makes exactly `fuel` further
invocations, returns the error of the last one, and sleeps once per
non-final failure. -/
theorem retryLoop_allfail (tr : Nat → TransportResult) (d : Nat)
    (hfail : ∀ i, (attemptOutcome (tr i)).isSome) :
    ∀ fuel n, 1 ≤ fuel →
      retryLoop tr d n fuel =
        { calls := n + fuel
          lastResp := respOf (tr (n + fuel - 1))
          result := attemptOutcome (tr (n + fuel - 1))
          sleeps := (List.range (fuel - 1)).map fun i => backOffDelay (n + i) d } := by
  intro fuel
  induction fuel with
  | zero => intro n h1; omega
  | succ f ih =>
    intro n _
    obtain ⟨e, he⟩ := Option.isSome_iff_exists.mp (hfail n)
    by_cases hf : f = 0
    · subst hf
      simp [retryLoop, he]
    · have hrest := ih (n + 1) (by omega)
      simp only [retryLoop, he, if_neg hf, hrest]
      obtain ⟨g, rfl⟩ : ∃ g, f = g + 1 := ⟨f - 1, by omega⟩
      congr 1
      · omega
      · exact congrArg (fun m => respOf (tr m)) (by omega)
      · exact congrArg (fun m => attemptOutcome (tr m)) (by omega)
      · simp only [Nat.add_sub_cancel]
        exact backOff_cons_range n g d

/-- When the attempts at indices `n, …, n+k-1` all fail and fuel outlasts
them, the first `k` backoff sleeps of the run are fully determined. -/
theorem retryLoop_sleeps_prefix (tr : Nat → TransportResult) (d : Nat) :
    ∀ k n fuel, k < fuel → (∀ i, i < k → (attemptOutcome (tr (n + i))).isSome) →
      (retryLoop tr d n fuel).sleeps.take k =
        (List.range k).map fun i => backOffDelay (n + i) d := by
  intro k
  induction k with
  | zero => intro n fuel _ _; simp
  | succ k ih =>
    intro n fuel hk hfail
    obtain ⟨f, rfl⟩ : ∃ f, fuel = f + 1 := ⟨fuel - 1, by omega⟩
    have h0 := hfail 0 (by omega)
    rw [Nat.add_zero] at h0
    obtain ⟨e, he⟩ := Option.isSome_iff_exists.mp h0
    have hf : f ≠ 0 := by omega
    simp only [retryLoop, he, if_neg hf]
    rw [List.take_succ_cons]
    rw [ih (n + 1) f (by omega) (fun i hi => by
      have hx := hfail (i + 1) (by omega)
      rw [show n + (i + 1) = n + 1 + i from by omega] at hx
      exact hx)]
    exact backOff_cons_range n k d

/-- Unfolding of `httpDo` when the polled breaker is `Open` and not yet
expired: immediate rejection. -/
theorem httpDo_open (cfg : Config) (b : Breaker) (now : Nat) (tr : Nat → TransportResult)
    (hb : (breakerCurrentState b now).state = .opened) :
    httpDo cfg b now tr =
      { resp := none
        err := some breakerOpenErr
        transportCalls := 0
        breaker := breakerCurrentState b now
        sleeps := [] } := by
  simp only [httpDo]
  rw [if_pos hb]

/-- Unfolding of `httpDo` when the polled breaker is not `Open`: the retry
loop runs and the breaker observes its aggregate outcome. -/
theorem httpDo_not_open (cfg : Config) (b : Breaker) (now : Nat) (tr : Nat → TransportResult)
    (hb : (breakerCurrentState b now).state ≠ .opened) :
    httpDo cfg b now tr =
      match (retryDo tr cfg.maxRetries cfg.retryDelay).result with
      | none =>
        { resp := (retryDo tr cfg.maxRetries cfg.retryDelay).lastResp
          err := none
          transportCalls := (retryDo tr cfg.maxRetries cfg.retryDelay).calls
          breaker := breakerOnSuccess (breakerCurrentState b now)
          sleeps := (retryDo tr cfg.maxRetries cfg.retryDelay).sleeps }
      | some e =>
        { resp := none
          err := some (mapError e (retryDo tr cfg.maxRetries cfg.retryDelay).lastResp)
          transportCalls := (retryDo tr cfg.maxRetries cfg.retryDelay).calls
          breaker := breakerOnFailure cfg (breakerCurrentState b now) now
          sleeps := (retryDo tr cfg.maxRetries cfg.retryDelay).sleeps } := by
  simp only [httpDo]
  rw [if_neg hb]

/-- C4 counterexample: the source classifier maps status 422 to the internal
category, not to invalid-input as the claim's table demands. -/
theorem c4_counterexample :
    (MapStatusToError 422 "error en respuesta de API externa").code = ErrorCode.internal ∧
    ErrorCode.internal ≠ ErrorCode.invalidInput := by
  decide

/-- C4 (amended): the boundary classifier maps 400 to invalid-input, 401 to
unauthorized, 403 to permission-denied, 404 to not-found, 409 to conflict
and 429 to unavailable, and every other status — 422, 413, 405, 408, 504,
503, 500 and all remaining codes included — to the internal category. -/
theorem c4_status_classification (msg : String) (code : Nat)
    (hcode : code ∉ [400, 401, 403, 404, 409, 429]) :
    (MapStatusToError 400 msg).code = ErrorCode.invalidInput ∧
    (MapStatusToError 401 msg).code = ErrorCode.unauthorized ∧
    (MapStatusToError 403 msg).code = ErrorCode.permissionDenied ∧
    (MapStatusToError 404 msg).code = ErrorCode.resourceNotFound ∧
    (MapStatusToError 409 msg).code = ErrorCode.conflict ∧
    (MapStatusToError 429 msg).code = ErrorCode.unavailable ∧
    (MapStatusToError code msg).code = ErrorCode.internal := by
  simp only [List.mem_cons, List.not_mem_nil, or_false] at hcode
  push_neg at hcode
  obtain ⟨h400, h401, h403, h404, h409, h429⟩ := hcode
  refine ⟨by simp [MapStatusToError], by simp [MapStatusToError], by simp [MapStatusToError],
    by simp [MapStatusToError], by simp [MapStatusToError], by simp [MapStatusToError], ?_⟩
  simp [MapStatusToError, h400, h401, h403, h404, h409, h429]

/-- C4 witness: status 422 is not among the specially-mapped codes, and the
classification table holds there. -/
theorem c4_status_classification_witness :
    (422 : Nat) ∉ [400, 401, 403, 404, 409, 429] ∧
    ((MapStatusToError 400 "m").code = ErrorCode.invalidInput ∧
     (MapStatusToError 401 "m").code = ErrorCode.unauthorized ∧
     (MapStatusToError 403 "m").code = ErrorCode.permissionDenied ∧
     (MapStatusToError 404 "m").code = ErrorCode.resourceNotFound ∧
     (MapStatusToError 409 "m").code = ErrorCode.conflict ∧
     (MapStatusToError 429 "m").code = ErrorCode.unavailable ∧
     (MapStatusToError 422 "m").code = ErrorCode.internal) :=
  ⟨by decide, c4_status_classification "m" 422 (by decide)⟩

/-- C9: `GetClient` is a `sync.Once` singleton: the first call stores the
very instance it returns; any later call returns the stored instance
unchanged, ignoring its logger and config arguments; a nil config on the
first call is replaced by `DefaultConfig`, while a non-nil config is used
as given. -/
theorem c9_getclient_singleton (l1 l2 : Nat) (cfg2 : Option Config) (c : ClientInst)
    (cfg1 : Config) :
    (GetClient none l1 none).2 = some (GetClient none l1 none).1 ∧
    GetClient (some c) l2 cfg2 = (c, some c) ∧
    (GetClient none l1 none).1.cfg = DefaultConfig ∧
    (GetClient none l1 (some cfg1)).1.cfg = cfg1 :=
  ⟨rfl, rfl, rfl, rfl⟩

/-- C10: for a response with status at least 400, `DoJSON` classifies the
status before touching the body: any two responses with that status, under
any bodies and any decoders, produce the same categorized error, namely the
one `MapStatusToError` assigns to the status. -/
theorem c10_error_status_ignores_body {T U : Type} (d1 : String → Option T)
    (d2 : String → Option U) (s : Nat) (b1 b2 : String) (hs : 400 ≤ s) :
    DoJSON d1 (.ok ⟨s, b1⟩) = .error (MapStatusToError s "error en respuesta de API externa") ∧
    DoJSON d2 (.ok ⟨s, b2⟩) = .error (MapStatusToError s "error en respuesta de API externa") := by
  constructor <;> simp [DoJSON, hs]

/-- C10 witness: two 404 responses with different bodies yield the same
mapped error under different decoders. -/
theorem c10_error_status_ignores_body_witness :
    (400 ≤ 404) ∧
    (DoJSON (fun _ => (none : Option Nat)) (.ok ⟨404, "cuerpo uno"⟩) =
        .error (MapStatusToError 404 "error en respuesta de API externa") ∧
     DoJSON (fun s => some s.length) (.ok ⟨404, "otro cuerpo"⟩) =
        .error (MapStatusToError 404 "error en respuesta de API externa")) :=
  ⟨by decide, c10_error_status_ignores_body (fun _ => (none : Option Nat)) (fun s => some s.length)
    404 "cuerpo uno" "otro cuerpo" (by decide)⟩

/-- C8 counterexample: the decode-failure error of `DoJSON` carries the
internal category — the very category `MapStatusToError` assigns to
upstream status 500 — so its category is not distinct from every
upstream-status category. -/
theorem c8_counterexample :
    DoJSON (fun _ => (none : Option Nat)) (.ok ⟨200, "no es json"⟩) = .error decodeFailureErr ∧
    decodeFailureErr.code = (MapStatusToError 500 "error en respuesta de API externa").code :=
  ⟨rfl, rfl⟩

/-- C8 (amended): `DoJSON` on a success-status response whose body fails to
decode returns `decodeFailureErr`, an internal-category error: its category
differs from the category of every specially-mapped client status (400,
401, 403, 404, 409, 429) but coincides with the category assigned to 500
and every other unhandled upstream status; the decode failure is
distinguished from those only by message and cause. -/
theorem c8_decode_failure {T : Type} (decode : String → Option T) (resp : Response)
    (hst : resp.status < 400) (hdec : decode resp.body = none) :
    DoJSON decode (.ok resp) = .error decodeFailureErr ∧
    decodeFailureErr.code = ErrorCode.internal ∧
    (∀ msg, (MapStatusToError 400 msg).code ≠ decodeFailureErr.code ∧
            (MapStatusToError 401 msg).code ≠ decodeFailureErr.code ∧
            (MapStatusToError 403 msg).code ≠ decodeFailureErr.code ∧
            (MapStatusToError 404 msg).code ≠ decodeFailureErr.code ∧
            (MapStatusToError 409 msg).code ≠ decodeFailureErr.code ∧
            (MapStatusToError 429 msg).code ≠ decodeFailureErr.code) ∧
    (∀ msg, (MapStatusToError 500 msg).code = decodeFailureErr.code) := by
  refine ⟨?_, rfl, fun msg => ?_, fun msg => rfl⟩
  · simp [DoJSON, Nat.not_le.mpr hst, hdec]
  · refine ⟨?_, ?_, ?_, ?_, ?_, ?_⟩ <;> simp [MapStatusToError, decodeFailureErr]

/-- C8 witness: a 200 response whose body fails the decoder: the amended
statement holds there, instantiated at the always-failing decoder. -/
theorem c8_decode_failure_witness :
    ((⟨200, "no-json"⟩ : Response).status < 400 ∧
     (fun _ => (none : Option Nat)) "no-json" = none) ∧
    DoJSON (fun _ => (none : Option Nat)) (.ok ⟨200, "no-json"⟩) = .error decodeFailureErr ∧
    decodeFailureErr.code = ErrorCode.internal :=
  ⟨⟨by decide, rfl⟩,
    (c8_decode_failure (fun _ => (none : Option Nat)) ⟨200, "no-json"⟩ (by decide) rfl).1,
    (c8_decode_failure (fun _ => (none : Option Nat)) ⟨200, "no-json"⟩ (by decide) rfl).2.1⟩

/-- C1 counterexample: with the default configuration and every transport
attempt returning 404, `Do` makes exactly one transport call and returns
the 404 response with a nil error — it does not return a not-found
categorized error. -/
theorem c1_counterexample :
    (httpDo DefaultConfig initialBreaker 0 tr404).transportCalls = 1 ∧
    (httpDo DefaultConfig initialBreaker 0 tr404).err = none ∧
    (httpDo DefaultConfig initialBreaker 0 tr404).resp = some ⟨404, "sin recurso"⟩ := by
  decide

/-- C1 (amended): a response with status 404 on the first attempt is
terminal — `Do` makes exactly one transport invocation — but `Do` returns
the 404 response itself with a nil error rather than a categorized error;
the not-found mapping for 404 is applied by `DoJSON` on that response. -/
theorem c1_do_404_no_retry {T : Type} (cfg : Config) (b : Breaker) (now : Nat)
    (tr : Nat → TransportResult) (r : Response) (decode : String → Option T)
    (hb : b.state = .closed) (h1 : 1 ≤ cfg.maxRetries)
    (h0 : tr 0 = .ok r) (h404 : r.status = 404) :
    (httpDo cfg b now tr).transportCalls = 1 ∧
    (httpDo cfg b now tr).err = none ∧
    (httpDo cfg b now tr).resp = some r ∧
    DoJSON decode (.ok r) =
      .error (MapStatusToError 404 "error en respuesta de API externa") ∧
    (MapStatusToError 404 "error en respuesta de API externa").code =
      ErrorCode.resourceNotFound := by
  have hout : attemptOutcome (tr 0) = none := by
    rw [h0]
    simp [attemptOutcome, h404]
  have hrun : retryDo tr cfg.maxRetries cfg.retryDelay =
      { calls := 1, lastResp := respOf (tr 0), result := none, sleeps := [] } := by
    have h := retryLoop_success tr cfg.retryDelay 0 0 cfg.maxRetries (by omega)
      (fun i hi => absurd hi (by omega)) (by simpa using hout)
    simpa [retryDo] using h
  have hne : (breakerCurrentState b now).state ≠ .opened := by
    rw [breakerCurrentState_closed b now hb, hb]
    simp
  rw [httpDo_not_open cfg b now tr hne]
  rw [hrun]
  refine ⟨rfl, rfl, by rw [h0]; rfl, ?_, rfl⟩
  simp [DoJSON, h404]

/-- C1 witness: the amended statement at the default configuration, a fresh
breaker and the all-404 transport. -/
theorem c1_do_404_no_retry_witness :
    (initialBreaker.state = .closed ∧ 1 ≤ DefaultConfig.maxRetries ∧
     tr404 0 = .ok ⟨404, "sin recurso"⟩ ∧ (⟨404, "sin recurso"⟩ : Response).status = 404) ∧
    (httpDo DefaultConfig initialBreaker 0 tr404).transportCalls = 1 ∧
    (httpDo DefaultConfig initialBreaker 0 tr404).resp = some ⟨404, "sin recurso"⟩ ∧
    DoJSON (fun _ => (none : Option Nat)) (.ok ⟨404, "sin recurso"⟩) =
      .error (MapStatusToError 404 "error en respuesta de API externa") :=
  ⟨⟨rfl, by decide, rfl, rfl⟩,
    (c1_do_404_no_retry DefaultConfig initialBreaker 0 tr404 ⟨404, "sin recurso"⟩
      (fun _ => (none : Option Nat)) rfl (by decide) rfl rfl).1,
    (c1_do_404_no_retry DefaultConfig initialBreaker 0 tr404 ⟨404, "sin recurso"⟩
      (fun _ => (none : Option Nat)) rfl (by decide) rfl rfl).2.2.1,
    (c1_do_404_no_retry DefaultConfig initialBreaker 0 tr404 ⟨404, "sin recurso"⟩
      (fun _ => (none : Option Nat)) rfl (by decide) rfl rfl).2.2.2.1⟩

/-- C2 counterexample: with `MaxRetries = 2` and a transport that fails the
first two attempts and would succeed on the third, the claim (reading the
config value as N retries on top of a first attempt, hence up to N+1 = 3
invocations, and success at attempt K = 3) predicts success; the code stops
after 2 invocations and returns the mapped 500 error. -/
theorem c2_counterexample :
    (httpDo c2cfg initialBreaker 0 tr500then200).transportCalls = 2 ∧
    (httpDo c2cfg initialBreaker 0 tr500then200).err =
      some (MapStatusToError 500 "error en petición HTTP") ∧
    attemptOutcome (tr500then200 2) = none := by
  decide

/-- C2 (amended): the config value `MaxRetries` is a total-attempt budget:
with `MaxRetries = N`, the Retry Controller invokes the Transport at most
`N` times — not `N + 1`; and when the transport fails on every attempt
before attempt `K ≤ N` and succeeds at attempt `K`, exactly `K` invocations
occur and the call returns the successful response. -/
theorem c2_attempt_budget (cfg : Config) (b : Breaker) (now K : Nat)
    (tr tr2 : Nat → TransportResult)
    (hb : b.state = .closed) (hK1 : 1 ≤ K) (hK : K ≤ cfg.maxRetries)
    (hfail : ∀ i, i + 1 < K → (attemptOutcome (tr i)).isSome)
    (hsucc : attemptOutcome (tr (K - 1)) = none) :
    (httpDo cfg b now tr2).transportCalls ≤ cfg.maxRetries ∧
    (httpDo cfg b now tr).transportCalls = K ∧
    (httpDo cfg b now tr).err = none ∧
    (httpDo cfg b now tr).resp = respOf (tr (K - 1)) := by
  have hne : ∀ b' : Breaker, b'.state = .closed →
      (breakerCurrentState b' now).state ≠ .opened := by
    intro b' hb'
    rw [breakerCurrentState_closed b' now hb', hb']
    simp
  constructor
  · rw [httpDo_not_open cfg b now tr2 (hne b hb)]
    have hbound := retryLoop_calls_le tr2 cfg.retryDelay cfg.maxRetries 0
    cases hres : (retryDo tr2 cfg.maxRetries cfg.retryDelay).result <;>
      simp only [hres] <;> simpa [retryDo] using hbound
  · have hrun : retryDo tr cfg.maxRetries cfg.retryDelay =
        { calls := 0 + (K - 1) + 1
          lastResp := respOf (tr (0 + (K - 1)))
          result := none
          sleeps := (List.range (K - 1)).map fun i => backOffDelay (0 + i) cfg.retryDelay } := by
      exact retryLoop_success tr cfg.retryDelay (K - 1) 0 cfg.maxRetries (by omega)
        (fun i hi => by simpa using hfail i (by omega)) (by simpa using hsucc)
    rw [httpDo_not_open cfg b now tr (hne b hb), hrun]
    refine ⟨?_, rfl, ?_⟩
    · show 0 + (K - 1) + 1 = K
      omega
    · show respOf (tr (0 + (K - 1))) = respOf (tr (K - 1))
      rw [Nat.zero_add]

/-- C2 witness: the amended statement with the test configuration
(`MaxRetries = 2`), success at attempt K = 2 after one failure, and the
always-failing transport exercising the budget bound. -/
theorem c2_attempt_budget_witness :
    (initialBreaker.state = .closed ∧ 1 ≤ 2 ∧ 2 ≤ c2cfg.maxRetries ∧
     attemptOutcome (trOneFailure (2 - 1)) = none) ∧
    (httpDo c2cfg initialBreaker 0 tr500).transportCalls ≤ c2cfg.maxRetries ∧
    (httpDo c2cfg initialBreaker 0 trOneFailure).transportCalls = 2 ∧
    (httpDo c2cfg initialBreaker 0 trOneFailure).err = none :=
  ⟨⟨rfl, by decide, by decide, by decide⟩,
    (c2_attempt_budget c2cfg initialBreaker 0 2 trOneFailure tr500 rfl (by decide) (by decide)
      (fun i hi => by
        obtain rfl : i = 0 := by omega
        decide) (by decide)).1,
    (c2_attempt_budget c2cfg initialBreaker 0 2 trOneFailure tr500 rfl (by decide) (by decide)
      (fun i hi => by
        obtain rfl : i = 0 := by omega
        decide) (by decide)).2.1,
    (c2_attempt_budget c2cfg initialBreaker 0 2 trOneFailure tr500 rfl (by decide) (by decide)
      (fun i hi => by
        obtain rfl : i = 0 := by omega
        decide) (by decide)).2.2.1⟩

/-- C5 counterexample: with base delay 1000 and four attempts all failing,
the backoff sleeps are 1000, 2000, 4000: the sleep before the fourth
attempt is 4000 = 1000·2², not 3·1000 as linearly increasing backoff
demands. -/
theorem c5_counterexample :
    (httpDo c5cfg initialBreaker 0 tr500).sleeps = [1000, 2000, 4000] ∧
    (httpDo c5cfg initialBreaker 0 tr500).sleeps[2]? ≠ some (1000 * 3) := by
  decide

/-- C5 (amended): the backoff is exponential, not linear: with a positive
base delay, the sleep inserted after the k-th failed attempt (before
attempt k+1) equals `base_delay * 2^(k-1)`, as long as the doubling stays
under the 63-bit overflow cap. -/
theorem c5_backoff_exponential (cfg : Config) (b : Breaker) (now k : Nat)
    (tr : Nat → TransportResult)
    (hb : b.state = .closed) (hd : 1 ≤ cfg.retryDelay)
    (hfail : ∀ i, i < k → (attemptOutcome (tr i)).isSome)
    (h1 : 1 ≤ k) (hk : k < cfg.maxRetries)
    (hcap : k - 1 ≤ 62 - log2Floor cfg.retryDelay) :
    (httpDo cfg b now tr).sleeps[k - 1]? = some (cfg.retryDelay * 2 ^ (k - 1)) := by
  have hne : (breakerCurrentState b now).state ≠ .opened := by
    rw [breakerCurrentState_closed b now hb, hb]
    simp
  have hsleeps : (httpDo cfg b now tr).sleeps =
      (retryDo tr cfg.maxRetries cfg.retryDelay).sleeps := by
    rw [httpDo_not_open cfg b now tr hne]
    cases hres : (retryDo tr cfg.maxRetries cfg.retryDelay).result <;> simp only [hres]
  have htake := retryLoop_sleeps_prefix tr cfg.retryDelay k 0 cfg.maxRetries (by omega)
    (fun i hi => by simpa using hfail i hi)
  have hlt : k - 1 < k := by omega
  have hget : (retryDo tr cfg.maxRetries cfg.retryDelay).sleeps[k - 1]? =
      some (backOffDelay (0 + (k - 1)) cfg.retryDelay) := by
    have h1' := congrArg (fun l => l[k - 1]?) htake
    simpa [retryDo, List.getElem?_take, hlt] using h1'
  rw [hsleeps, hget]
  have hmax : max cfg.retryDelay 1 = cfg.retryDelay := Nat.max_eq_left hd
  have hmin : min (k - 1) (62 - log2Floor cfg.retryDelay) = k - 1 := Nat.min_eq_left hcap
  simp only [backOffDelay, Nat.zero_add, hmax, hmin, Nat.shiftLeft_eq]

/-- C5 witness: the amended statement at base delay 1000 and k = 3 failed
attempts: the third sleep is 1000·2² = 4000. -/
theorem c5_backoff_exponential_witness :
    (initialBreaker.state = .closed ∧ 1 ≤ c5cfg.retryDelay ∧ 1 ≤ 3 ∧ 3 < c5cfg.maxRetries ∧
     3 - 1 ≤ 62 - log2Floor c5cfg.retryDelay) ∧
    (httpDo c5cfg initialBreaker 0 tr500).sleeps[3 - 1]? = some (c5cfg.retryDelay * 2 ^ (3 - 1)) :=
  ⟨⟨rfl, by decide, by decide, by decide, by decide⟩,
    c5_backoff_exponential c5cfg initialBreaker 0 3 tr500 rfl (by decide)
      (fun i _ => rfl) (by decide) (by decide) (by decide)⟩

/-- C3: while `Closed`, a call whose transport attempts all fail counts one
failure toward the breaker; when the consecutive-failure count reaches the
configured threshold the breaker opens for `cbTimeout`; and any call made
while the breaker is `Open` and unexpired returns the breaker-open
categorized error immediately, with zero transport invocations and the
breaker unchanged. -/
theorem c3_breaker_opens_and_rejects (cfg : Config) (b b2 : Breaker) (now now2 : Nat)
    (tr tr2 : Nat → TransportResult)
    (hb : b.state = .closed) (h1 : 1 ≤ cfg.maxRetries)
    (hth : cfg.cbThreshold ≤ b.counts.consecutiveFailures + 1)
    (hfail : ∀ i, (attemptOutcome (tr i)).isSome)
    (hopen : b2.state = .opened) (hnow : now2 < b2.expiry) :
    (httpDo cfg b now tr).breaker.state = .opened ∧
    (httpDo cfg b now tr).breaker.expiry = now + cfg.cbTimeout ∧
    (httpDo cfg b2 now2 tr2).err = some breakerOpenErr ∧
    (httpDo cfg b2 now2 tr2).transportCalls = 0 ∧
    (httpDo cfg b2 now2 tr2).breaker = b2 := by
  have hb1 := breakerCurrentState_closed b now hb
  have hne : (breakerCurrentState b now).state ≠ .opened := by
    rw [hb1, hb]
    simp
  have hrun := retryLoop_allfail tr cfg.retryDelay hfail cfg.maxRetries 0 h1
  obtain ⟨e, he⟩ := Option.isSome_iff_exists.mp (hfail (0 + cfg.maxRetries - 1))
  have hres : (retryDo tr cfg.maxRetries cfg.retryDelay).result = some e := by
    rw [retryDo, hrun]
    exact he
  have hbreaker : (httpDo cfg b now tr).breaker = breakerOnFailure cfg b now := by
    rw [httpDo_not_open cfg b now tr hne, hres, hb1]
  have hopenB : breakerOnFailure cfg b now =
      { state := .opened, counts := ⟨0, 0⟩, expiry := now + cfg.cbTimeout } := by
    simp only [breakerOnFailure, hb]
    split
    · rfl
    · rename_i hcond
      exfalso
      simp [readyToTrip] at hcond
      omega
  have hcs2 : breakerCurrentState b2 now2 = b2 := by
    simp only [breakerCurrentState, hopen]
    rw [if_neg (by omega)]
  have hopen2 : (breakerCurrentState b2 now2).state = .opened := by
    rw [hcs2]
    exact hopen
  have hB := httpDo_open cfg b2 now2 tr2 hopen2
  refine ⟨?_, ?_, ?_, ?_, ?_⟩
  · rw [hbreaker, hopenB]
  · rw [hbreaker, hopenB]
  · rw [hB]
  · rw [hB]
  · rw [hB, hcs2]

/-- C3 witness: threshold 3, a closed breaker with two prior consecutive
failures, an all-500 transport, and an unexpired open breaker rejecting a
later call. -/
theorem c3_breaker_opens_and_rejects_witness :
    ((⟨.closed, ⟨2, 0⟩, 0⟩ : Breaker).state = .closed ∧
     c2cfg.cbThreshold ≤ (⟨.closed, ⟨2, 0⟩, 0⟩ : Breaker).counts.consecutiveFailures + 1 ∧
     (⟨.opened, ⟨0, 0⟩, 1000⟩ : Breaker).state = .opened ∧
     5 < (⟨.opened, ⟨0, 0⟩, 1000⟩ : Breaker).expiry) ∧
    (httpDo c2cfg ⟨.closed, ⟨2, 0⟩, 0⟩ 0 tr500).breaker.state = .opened ∧
    (httpDo c2cfg ⟨.opened, ⟨0, 0⟩, 1000⟩ 5 tr500).err = some breakerOpenErr ∧
    (httpDo c2cfg ⟨.opened, ⟨0, 0⟩, 1000⟩ 5 tr500).transportCalls = 0 :=
  ⟨⟨rfl, by decide, rfl, by decide⟩,
    (c3_breaker_opens_and_rejects c2cfg ⟨.closed, ⟨2, 0⟩, 0⟩ ⟨.opened, ⟨0, 0⟩, 1000⟩ 0 5
      tr500 tr500 rfl (by decide) (by decide) (fun i => rfl) rfl (by decide)).1,
    (c3_breaker_opens_and_rejects c2cfg ⟨.closed, ⟨2, 0⟩, 0⟩ ⟨.opened, ⟨0, 0⟩, 1000⟩ 0 5
      tr500 tr500 rfl (by decide) (by decide) (fun i => rfl) rfl (by decide)).2.2.1,
    (c3_breaker_opens_and_rejects c2cfg ⟨.closed, ⟨2, 0⟩, 0⟩ ⟨.opened, ⟨0, 0⟩, 1000⟩ 0 5
      tr500 tr500 rfl (by decide) (by decide) (fun i => rfl) rfl (by decide)).2.2.2.1⟩

/-- C7: once the open-duration has elapsed, the next call is admitted as a
trial (one transport invocation when it succeeds at once): a successful
trial closes the breaker and resets the consecutive-failure counter to
zero, while a failing trial reopens the breaker with a fresh open-duration
timer starting at the current call. -/
theorem c7_halfopen_trial (cfg : Config) (b : Breaker) (now : Nat)
    (trs trf : Nat → TransportResult)
    (hb : b.state = .opened) (helapsed : b.expiry ≤ now) (h1 : 1 ≤ cfg.maxRetries)
    (hsucc : attemptOutcome (trs 0) = none)
    (hfail : ∀ i, (attemptOutcome (trf i)).isSome) :
    (httpDo cfg b now trs).transportCalls = 1 ∧
    (httpDo cfg b now trs).breaker = ⟨.closed, ⟨0, 0⟩, 0⟩ ∧
    (httpDo cfg b now trf).breaker = ⟨.opened, ⟨0, 0⟩, now + cfg.cbTimeout⟩ := by
  have hcs : breakerCurrentState b now = ⟨.halfOpen, ⟨0, 0⟩, 0⟩ := by
    simp only [breakerCurrentState, hb]
    rw [if_pos helapsed]
  have hne : (breakerCurrentState b now).state ≠ .opened := by
    rw [hcs]
    simp
  have hruns : retryDo trs cfg.maxRetries cfg.retryDelay =
      { calls := 1, lastResp := respOf (trs 0), result := none, sleeps := [] } := by
    have h := retryLoop_success trs cfg.retryDelay 0 0 cfg.maxRetries (by omega)
      (fun i hi => absurd hi (by omega)) (by simpa using hsucc)
    simpa [retryDo] using h
  have hrunf := retryLoop_allfail trf cfg.retryDelay hfail cfg.maxRetries 0 h1
  obtain ⟨e, he⟩ := Option.isSome_iff_exists.mp (hfail (0 + cfg.maxRetries - 1))
  have hresf : (retryDo trf cfg.maxRetries cfg.retryDelay).result = some e := by
    rw [retryDo, hrunf]
    exact he
  refine ⟨?_, ?_, ?_⟩
  · rw [httpDo_not_open cfg b now trs hne, hruns]
  · rw [httpDo_not_open cfg b now trs hne, hruns]
    show breakerOnSuccess (breakerCurrentState b now) = _
    rw [hcs]
    rfl
  · rw [httpDo_not_open cfg b now trf hne, hresf]
    show breakerOnFailure cfg (breakerCurrentState b now) now = _
    rw [hcs]
    rfl

/-- C7 witness: an open breaker expired at 10, probed at 50: a 200 trial
closes it with zeroed counters, a 500 trial reopens it until
`50 + cbTimeout`. -/
theorem c7_halfopen_trial_witness :
    ((⟨.opened, ⟨0, 0⟩, 10⟩ : Breaker).state = .opened ∧
     (⟨.opened, ⟨0, 0⟩, 10⟩ : Breaker).expiry ≤ 50 ∧
     attemptOutcome (tr200 0) = none) ∧
    (httpDo c2cfg ⟨.opened, ⟨0, 0⟩, 10⟩ 50 tr200).transportCalls = 1 ∧
    (httpDo c2cfg ⟨.opened, ⟨0, 0⟩, 10⟩ 50 tr200).breaker = ⟨.closed, ⟨0, 0⟩, 0⟩ ∧
    (httpDo c2cfg ⟨.opened, ⟨0, 0⟩, 10⟩ 50 tr500).breaker =
      ⟨.opened, ⟨0, 0⟩, 50 + c2cfg.cbTimeout⟩ :=
  ⟨⟨rfl, by decide, rfl⟩,
    (c7_halfopen_trial c2cfg ⟨.opened, ⟨0, 0⟩, 10⟩ 50 tr200 tr500 rfl (by decide) (by decide)
      rfl (fun i => rfl)).1,
    (c7_halfopen_trial c2cfg ⟨.opened, ⟨0, 0⟩, 10⟩ 50 tr200 tr500 rfl (by decide) (by decide)
      rfl (fun i => rfl)).2.1,
    (c7_halfopen_trial c2cfg ⟨.opened, ⟨0, 0⟩, 10⟩ 50 tr200 tr500 rfl (by decide) (by decide)
      rfl (fun i => rfl)).2.2⟩

/-- C6, evaluated at the failing input: overall timeout 30000, three
attempts of duration 20000 each answering 500. Every attempt passes the
per-attempt check — the `http.Client` timeout clock restarts with each
attempt — so all three attempts run with two backoff sleeps, and the total
elapsed time is 63000, exceeding the configured timeout: the configured
timeout bounds each attempt alone, not the sum of all attempts, and the
call is not abandoned when the configured bound elapses. -/
theorem c6_timeout_is_per_attempt :
    c6dur 0 ≤ c6cfg.timeout ∧
    c6run.calls = 3 ∧
    c6run.sleeps = [1000, 2000] ∧
    c6run.result = some (GoError.serverError 500) ∧
    totalElapsed c6cfg.timeout c6dur c6run = 63000 ∧
    c6cfg.timeout < totalElapsed c6cfg.timeout c6dur c6run := by
  decide

end GoKit
